import Mathlib

/-!
Verification development for the Laude Agent repository.

The authentication module (LAUDE-AGENT-GITHUB-READY/auth_system.py), the
audio merge utility (src/utils/merge_audio.py) and the main pipeline
(src/main.py) are shallowly embedded below.  Machine integers are Nat,
wall-clock time is an explicit Nat parameter measured in minutes, the
SQLite store is explicit state, and the random draws of the secrets
module are explicit parameters.
-/

namespace LaudeAgent

/-! ### OTP code formatting

auth_system.py line 239 and backend/server.py line 110 both build the
code as the Python f-string 06d format of secrets.randbelow(900000) + 100000.
The random draw is modelled as an arbitrary natural reduced mod 900000. -/

/-- Decimal digit characters of a natural number, most significant first,
as produced by Python decimal formatting. -/
def natDecimalChars (n : Nat) : List Char :=
  if n = 0 then ['0'] else ((Nat.digits 10 n).map Nat.digitChar).reverse

/-- Left zero-padding to width 6, mirroring the 06d format specifier. -/
def pad6 (cs : List Char) : List Char :=
  List.replicate (6 - cs.length) '0' ++ cs

/-- The OTP code string built by generate_otp (auth_system.py line 239). -/
def otpCode (r : Nat) : String :=
  String.mk (pad6 (natDecimalChars (r % 900000 + 100000)))

/-! ### Data model (auth_system.py, tables created in init_database) -/

/-- A row of the users table (auth_system.py lines 45-58). -/
structure UserRecord where
  uid : Nat
  email : String
  fullName : String
  department : String
  companyDomain : String
  lastLogin : Option Nat
  loginCount : Nat
  deriving DecidableEq

/-- A row of the otp_codes table (auth_system.py lines 61-71). -/
structure OtpRecord where
  rid : Nat
  email : String
  otp_code : String
  createdAt : Nat
  expiresAt : Nat
  isUsed : Bool
  attempts : Nat
  deriving DecidableEq

/-- A row of the user_sessions table (auth_system.py lines 74-87). -/
structure SessionRecord where
  sid : Nat
  userId : Nat
  sessionToken : String
  expiresAt : Nat
  isActive : Bool
  lastActivity : Nat
  deriving DecidableEq

/-- A row of the company_settings table (auth_system.py lines 103-116). -/
structure CompanySetting where
  domain : String
  companyName : String
  adminEmail : String
  isActive : Bool
  deriving DecidableEq

/-- The whole relational store.  nextId models the AUTOINCREMENT counter
shared across tables (a fresh row id is never a row id already in use). -/
structure AuthState where
  settings : List CompanySetting
  users : List UserRecord
  otps : List OtpRecord
  sessions : List SessionRecord
  nextId : Nat
  deriving DecidableEq

/-- The default company rows inserted by _setup_default_companies. -/
def defaultSettings : List CompanySetting :=
  [⟨"hhamedicine.com", "HHA Medicine", "admin@hhamedicine.com", true⟩,
   ⟨"hssmedicine.com", "HSS Medicine", "admin@hssmedicine.com", true⟩]

/-- State right after init_database on a fresh database file. -/
def initState : AuthState :=
  ⟨defaultSettings, [], [], [], 1⟩

/-- The dictionaries returned by the EnterpriseAuth operations.  success and
message mirror the keys of the Python dicts; the optional payloads carry
session_token, user_id and user_data when the corresponding keys are present
(message is the empty string when the Python dict has no message key). -/
structure AuthResult where
  success : Bool
  message : String
  sessionToken : Option String
  userId : Option Nat
  userData : Option UserRecord
  deriving DecidableEq

/-- A failure dictionary: success False plus a message. -/
def failRes (msg : String) : AuthResult :=
  ⟨false, msg, none, none, none⟩

/-- EnterpriseAuth.ALLOWED_DOMAINS (auth_system.py line 25). -/
def ALLOWED_DOMAINS : List String :=
  ["hhamedicine.com", "hssmedicine.com"]

/-- EnterpriseAuth.OTP_EXPIRY_MINUTES (auth_system.py line 28). -/
def OTP_EXPIRY_MINUTES : Nat := 10

/-- EnterpriseAuth.SESSION_EXPIRY_HOURS (auth_system.py line 31). -/
def SESSION_EXPIRY_HOURS : Nat := 8

/-- The access-restriction message of validate_email_domain (line 161):
the f-string over the joined ALLOWED_DOMAINS, written out. -/
def restrictionMsg : String :=
  "Access restricted to hhamedicine.com and hssmedicine.com employees only"

/-- Python str.lower(), characterwise. -/
def pyLower (s : String) : String :=
  String.mk (s.data.map Char.toLower)

/-- Python str.strip(): leading and trailing whitespace removed. -/
def pyStrip (s : String) : String :=
  String.mk
    (((s.data.dropWhile Char.isWhitespace).reverse.dropWhile
      Char.isWhitespace).reverse)

/-- Python '@' in email. -/
def hasAtSign (email : String) : Bool :=
  email.data.contains '@'

/-- Python email.split('@')[1]: the component between the first and the
second '@' of the string (auth_system.py lines 158 and 537). -/
def pyDomainPartRaw (email : String) : String :=
  String.mk
    (((email.data.dropWhile fun c => !(c == '@')).drop 1).takeWhile
      fun c => !(c == '@'))

/-- Python email.split('@')[1].lower() (auth_system.py line 158). -/
def pyDomainPart (email : String) : String :=
  pyLower (pyDomainPartRaw email)

/-- EnterpriseAuth.validate_email_domain (auth_system.py lines 153-163).
Returns (False, error message) or (True, lowercased domain). -/
def validate_email_domain (email : String) : Bool × String :=
  if (email == "") || !(hasAtSign email) then
    (false, "Invalid email format")
  else
    let domain := pyDomainPart email
    if !(ALLOWED_DOMAINS.contains domain) then
      (false, restrictionMsg)
    else
      (true, domain)

/-- EnterpriseAuth.get_company_info (auth_system.py lines 505-532):
lookup of an active company_settings row by exact domain string. -/
def get_company_info (s : AuthState) (domain : String) : Option CompanySetting :=
  s.settings.find? fun c => c.domain == domain && c.isActive

/-- EnterpriseAuth.register_user (auth_system.py lines 165-225). -/
def register_user (s : AuthState) (email fullName department : String) :
    AuthState × AuthResult :=
  if !(validate_email_domain email).1 then
    (s, failRes (validate_email_domain email).2)
  else
    match get_company_info s (validate_email_domain email).2 with
    | none =>
        (s, failRes ("Company configuration not found for domain: " ++
          (validate_email_domain email).2))
    | some company =>
        match s.users.find? fun u => u.email == pyLower email with
        | some _ =>
            (s, failRes "User already registered. Please use login instead.")
        | none =>
            ({ s with
                users := s.users ++
                  [⟨s.nextId, pyLower email, pyStrip fullName,
                    pyStrip department, (validate_email_domain email).2,
                    none, 0⟩]
                nextId := s.nextId + 1 },
              ⟨true, "Registration successful! Welcome to " ++ company.companyName,
                none, some s.nextId, none⟩)

/-- EnterpriseAuth.send_otp_email (auth_system.py lines 534-588): succeeds
exactly when get_company_info finds the raw (not lowercased) domain part;
an email without '@' makes split('@')[1] raise, caught as failure. -/
def send_otp_email (s : AuthState) (email : String) : Bool :=
  if !(hasAtSign email) then false
  else (get_company_info s (pyDomainPartRaw email)).isSome

/-- The store after the OTP insert of generate_otp (auth_system.py lines
247-259): all unused OTP rows of the email marked used, then the fresh
unused row appended. -/
def genOtpState (s : AuthState) (email : String) (r now : Nat) : AuthState :=
  { s with
      otps := (s.otps.map fun o =>
        if o.email == pyLower email && !o.isUsed then { o with isUsed := true }
        else o) ++
        [⟨s.nextId, pyLower email, otpCode r, now, now + OTP_EXPIRY_MINUTES,
          false, 0⟩]
      nextId := s.nextId + 1 }

/-- EnterpriseAuth.generate_otp (auth_system.py lines 227-283).
r is the secrets.randbelow draw, now the current time in minutes.
The insert is committed before the email send, so the store keeps the new
row even when the send fails. -/
def generate_otp (s : AuthState) (email : String) (r now : Nat) :
    AuthState × AuthResult :=
  if !(validate_email_domain email).1 then
    (s, failRes (validate_email_domain email).2)
  else
    if send_otp_email (genOtpState s email r now) email then
      (genOtpState s email r now,
        ⟨true, "OTP sent to " ++ email ++ ". Valid for 10 minutes.",
          none, none, none⟩)
    else
      (genOtpState s email r now,
        failRes "Failed to send OTP email. Please try again.")

/-- ORDER BY created_at DESC LIMIT 1 over a result list: the row with the
greatest created_at, later insertions winning ties. -/
def pickLatest : List OtpRecord → Option OtpRecord
  | [] => none
  | o :: os =>
      match pickLatest os with
      | none => some o
      | some b => if b.createdAt ≥ o.createdAt then some b else some o

/-- The SELECT of verify_otp (auth_system.py lines 292-296): the newest
unused row matching the email and code. -/
def findOtp (s : AuthState) (e code : String) : Option OtpRecord :=
  pickLatest (s.otps.filter fun o =>
    o.email == e && o.otp_code == code && !o.isUsed)

/-- UPDATE otp_codes SET is_used = 1 WHERE id = rid. -/
def markUsed (rid : Nat) (otps : List OtpRecord) : List OtpRecord :=
  otps.map fun o => if o.rid == rid then { o with isUsed := true } else o

/-- EnterpriseAuth.verify_otp (auth_system.py lines 285-398).
tok is the secrets.token_urlsafe draw for the new session.  In the
user-not-found branch the connection is closed without commit, so the
mark-used update of line 340 is rolled back and the store is unchanged. -/
def verify_otp (s : AuthState) (email code : String) (now : Nat)
    (tok : String) : AuthState × AuthResult :=
  match findOtp s (pyLower email) code with
  | none =>
      ({ s with otps := s.otps.map fun o =>
          if o.email == pyLower email && !o.isUsed then
            { o with attempts := o.attempts + 1 }
          else o },
        failRes "Invalid OTP code. Please check and try again.")
  | some m =>
      if now > m.expiresAt then
        ({ s with otps := markUsed m.rid s.otps },
          failRes "OTP has expired. Please request a new one.")
      else if m.attempts ≥ 3 then
        ({ s with otps := markUsed m.rid s.otps },
          failRes "Too many failed attempts. Please request a new OTP.")
      else
        match s.users.find? fun u => u.email == pyLower email with
        | none =>
            (s, failRes "User not found. Please register first.")
        | some u =>
            ({ s with
                otps := markUsed m.rid s.otps
                sessions := s.sessions ++
                  [⟨s.nextId, u.uid, tok, now + SESSION_EXPIRY_HOURS * 60,
                    true, now⟩]
                users := s.users.map fun x =>
                  if x.uid == u.uid then
                    { x with lastLogin := some now, loginCount := x.loginCount + 1 }
                  else x
                nextId := s.nextId + 1 },
              ⟨true, "Login successful!", some tok, none, some u⟩)

/-- The SELECT ... JOIN of validate_session (auth_system.py lines 406-411):
the first active session row carrying the token that joins to a user row. -/
def findSession (s : AuthState) (tok : String) :
    Option (SessionRecord × UserRecord) :=
  (s.sessions.filter fun ss => ss.sessionToken == tok && ss.isActive).findSome?
    fun ss => (s.users.find? fun u => u.uid == ss.userId).map fun u => (ss, u)

/-- EnterpriseAuth.validate_session (auth_system.py lines 400-462). -/
def validate_session (s : AuthState) (tok : String) (now : Nat) :
    AuthState × AuthResult :=
  match findSession s tok with
  | none => (s, failRes "Invalid session. Please login again.")
  | some (ss, u) =>
      if now > ss.expiresAt then
        ({ s with sessions := s.sessions.map fun x =>
            if x.sessionToken == tok then { x with isActive := false } else x },
          failRes "Session expired. Please login again.")
      else
        ({ s with sessions := s.sessions.map fun x =>
            if x.sessionToken == tok then { x with lastActivity := now } else x },
          ⟨true, "", none, none, some u⟩)

/-- EnterpriseAuth.logout_user (auth_system.py lines 464-503). -/
def logout_user (s : AuthState) (tok : String) : AuthState × AuthResult :=
  ({ s with sessions := s.sessions.map fun x =>
      if x.sessionToken == tok then { x with isActive := false } else x },
    ⟨true, "Logged out successfully", none, none, none⟩)

/-! ### Operation traces over the store (for the temporal claims) -/

/-- One invocation of a public EnterpriseAuth operation, with its random
draws and the wall-clock time of the call. -/
inductive Op where
  | register (email fullName department : String)
  | genOtp (email : String) (r now : Nat)
  | verify (email code : String) (now : Nat) (tok : String)
  | validate (tok : String) (now : Nat)
  | logout (tok : String)
  deriving DecidableEq

/-- Effect of one operation on the store. -/
def step (s : AuthState) : Op → AuthState
  | .register e n d => (register_user s e n d).1
  | .genOtp e r now => (generate_otp s e r now).1
  | .verify e c now tok => (verify_otp s e c now tok).1
  | .validate tok now => (validate_session s tok now).1
  | .logout tok => (logout_user s tok).1

/-- The row id of the OTP record matched by a successful verify_otp call,
none for an unsuccessful call or any other operation. -/
def matchedSuccessRid (s : AuthState) : Op → Option Nat
  | .verify e c now tok =>
      if (verify_otp s e c now tok).2.success then
        (findOtp s (pyLower e) c).map (fun o => o.rid)
      else none
  | _ => none

/-- How many operations of a trace are successful verify_otp calls matching
the OTP record with row id i. -/
def countSuccess (s : AuthState) (i : Nat) : List Op → Nat
  | [] => 0
  | op :: ops =>
      (if matchedSuccessRid s op = some i then 1 else 0) +
        countSuccess (step s op) i ops

/-- A verify_otp invocation for exactly this email and code that
succeeds, the success notion of the claim about (email, code) pairs. -/
def pairSuccess (email code : String) (op : Op) (s : AuthState) : Bool :=
  match op with
  | Op.verify e c now tok =>
      e == email && c == code && (verify_otp s e c now tok).2.success
  | _ => false

/-- How many operations of a trace are successful verify_otp calls for the
given (email, code) pair. -/
def countPairSuccess (s : AuthState) (email code : String) : List Op → Nat
  | [] => 0
  | op :: ops =>
      (if pairSuccess email code op s = true then 1 else 0) +
        countPairSuccess (step s op) email code ops

/-- Well-formed OTP rows with counter n: row ids pairwise distinct and
below n. -/
def WfO (l : List OtpRecord) (n : Nat) : Prop :=
  (l.map (fun o => o.rid)).Nodup ∧ ∀ o ∈ l, o.rid < n

/-- Store well-formedness: OTP row ids are pairwise distinct and below the
AUTOINCREMENT counter. -/
def Wf (s : AuthState) : Prop :=
  WfO s.otps s.nextId

/-- Some OTP row with id i exists and is marked used. -/
def UsedIn (l : List OtpRecord) (i : Nat) : Prop :=
  ∃ o ∈ l, o.rid = i ∧ o.isUsed = true

/-- The OTP row is live for the email: same email and still unused. -/
def liveFor (e : String) (o : OtpRecord) : Bool :=
  o.email == e && !o.isUsed

/-- The single-live-OTP property: at most one unused OTP row per email. -/
def SingleLive (s : AuthState) : Prop :=
  ∀ e : String, s.otps.countP (liveFor e) ≤ 1

/-- Session tokens are pairwise distinct (UNIQUE column constraint). -/
def TokensUnique (s : AuthState) : Prop :=
  (s.sessions.map (fun ss => ss.sessionToken)).Nodup

/-! ### Error propagation (auth_system.py try/except structure)

Every public EnterpriseAuth method wraps its body in try/except; the
database layer is the only source of exceptions and is modelled as an
oracle that either returns the pure result or raises. -/

/-- A database-layer call: raises exactly when the oracle says so. -/
def dbCall {α : Type} (dbFail : Bool) (x : α) : Except String α :=
  if dbFail then Except.error "db error" else Except.ok x

/-- Python try/except: run the body, give the exception to the handler. -/
def attempt {α : Type} (body : Except String α)
    (handler : String → Except String α) : Except String α :=
  match body with
  | Except.ok a => Except.ok a
  | Except.error e => handler e

/-- register_user with its try/except (auth_system.py lines 167, 220-225). -/
def register_user_run (dbFail : Bool) (s : AuthState)
    (email fullName department : String) : Except String (AuthState × AuthResult) :=
  attempt (dbCall dbFail (register_user s email fullName department))
    (fun _ => Except.ok (s, failRes "Registration failed. Please try again."))

/-- generate_otp with its try/except (auth_system.py lines 229, 278-283). -/
def generate_otp_run (dbFail : Bool) (s : AuthState) (email : String)
    (r now : Nat) : Except String (AuthState × AuthResult) :=
  attempt (dbCall dbFail (generate_otp s email r now))
    (fun _ => Except.ok (s, failRes "Failed to generate OTP. Please try again."))

/-- verify_otp with its try/except (auth_system.py lines 287, 393-398). -/
def verify_otp_run (dbFail : Bool) (s : AuthState) (email code : String)
    (now : Nat) (tok : String) : Except String (AuthState × AuthResult) :=
  attempt (dbCall dbFail (verify_otp s email code now tok))
    (fun _ => Except.ok (s, failRes "Login failed. Please try again."))

/-- validate_session with its try/except (auth_system.py lines 402, 457-462). -/
def validate_session_run (dbFail : Bool) (s : AuthState) (tok : String)
    (now : Nat) : Except String (AuthState × AuthResult) :=
  attempt (dbCall dbFail (validate_session s tok now))
    (fun _ =>
      Except.ok (s, failRes "Session validation failed. Please login again."))

/-- logout_user with its try/except (auth_system.py lines 466, 498-503). -/
def logout_user_run (dbFail : Bool) (s : AuthState) (tok : String) :
    Except String (AuthState × AuthResult) :=
  attempt (dbCall dbFail (logout_user s tok))
    (fun _ => Except.ok (s, failRes "Logout failed"))

/-- init_database with its try/except (auth_system.py lines 40, 127-129):
the handler logs the error and then re-raises it to the caller. -/
def init_database_run (dbFail : Bool) : Except String Unit :=
  attempt (dbCall dbFail ()) (fun e => Except.error e)

end LaudeAgent

namespace LaudePipeline

/-! ### The main pipeline (LAUDE-AGENT-GITHUB-READY/src/main.py, main, lines 38-119)

The stage implementations are parameters: record_multiple_clips yields a
clip list, merge_audio_clips maps it to an optional output path,
transcribe_audio maps the (possibly missing) path to an optional
transcript, generate_dream_team_email maps the transcript to an optional
email body, send_email_outlook_draft reports a Bool.  main checks the
clip list, the transcript and the email body for truthiness, but never
checks the merge result: the merge output is passed to transcription
as-is. -/

/-- The pipeline stages of main. -/
inductive Stage where
  | record
  | merge
  | transcribe
  | generate
  | send
  deriving DecidableEq

/-- The stage implementations main is wired to. -/
structure PipelineEnv where
  recordClips : List Nat
  mergeFn : List Nat → Option String
  transcribeFn : Option String → Option String
  generateFn : String → Option String
  sendFn : String → Bool

/-- The stages executed by one run of main, in execution order
(main.py lines 46-109). -/
def mainStages (env : PipelineEnv) : List Stage :=
  let clips := env.recordClips
  if clips.isEmpty then
    [Stage.record]
  else
    let merged := env.mergeFn clips
    match env.transcribeFn merged with
    | none => [Stage.record, Stage.merge, Stage.transcribe]
    | some t =>
        match env.generateFn t with
        | none => [Stage.record, Stage.merge, Stage.transcribe, Stage.generate]
        | some d =>
            let _ := env.sendFn d
            [Stage.record, Stage.merge, Stage.transcribe, Stage.generate,
              Stage.send]

/-- The fixed stage order of the pipeline. -/
def fullOrder : List Stage :=
  [Stage.record, Stage.merge, Stage.transcribe, Stage.generate, Stage.send]

end LaudePipeline

namespace LaudeMerge

/-! ### Audio concatenation (src/utils/merge_audio.py, merge_audio_clips, lines 9-80)

A WAV file is its three header parameters plus its frame list; an input
path that cannot be opened is modelled as none.  If the first input
cannot be opened, the outer try fails and the function returns None. -/

/-- A readable WAV file. -/
structure WavFile where
  rate : Nat
  channels : Nat
  width : Nat
  frames : List Nat
  deriving DecidableEq

/-- The three header parameters match those of the first file. -/
def paramsMatch (first w : WavFile) : Bool :=
  w.rate == first.rate && w.channels == first.channels &&
    w.width == first.width

/-- The merge loop (merge_audio.py lines 35-57): frames written so far and
total_frames, one input at a time; unreadable and mismatched inputs are
skipped. -/
def mergeLoop (first : WavFile) :
    List (Option WavFile) → List Nat → Nat → List Nat × Nat
  | [], acc, tot => (acc, tot)
  | none :: rest, acc, tot => mergeLoop first rest acc tot
  | some w :: rest, acc, tot =>
      if paramsMatch first w then
        mergeLoop first rest (acc ++ w.frames) (tot + w.frames.length)
      else
        mergeLoop first rest acc tot

/-- merge_audio_clips: some written output file on success, none on an
empty input list, an unreadable first input, or zero merged frames. -/
def merge_audio_clips (files : List (Option WavFile)) : Option WavFile :=
  match files with
  | [] => none
  | none :: _ => none
  | some first :: rest =>
      let res := mergeLoop first (some first :: rest) [] 0
      if res.2 = 0 then none
      else some ⟨first.rate, first.channels, first.width, res.1⟩

end LaudeMerge

namespace LaudeAgent

/-! ### Claim-side refinement definition and concrete stores -/

/-- Modelled from the claim wording for the domain part of an email:
the text after the (first) '@', lowercased.  To be compared with
pyDomainPart, which embeds the split('@')[1] of the source. -/
def specDomainPart (email : String) : String :=
  pyLower (String.mk ((email.data.dropWhile fun c => !(c == '@')).drop 1))

/-- The email of the C1 reissue trace. -/
def c1Email : String := "a@hhamedicine.com"

/-- The C1 reissue trace: register, issue with draw 5, verify, issue with
the same draw 5 again (generate_otp guards against nothing here), verify
the identical code again. -/
def c1s1 : AuthState := step initState (Op.register c1Email "Ann" "Tech")

/-- The store after the first issuance of the C1 trace. -/
def c1s2 : AuthState := step c1s1 (Op.genOtp c1Email 5 0)

/-- The store after the first (successful) verification of the C1 trace. -/
def c1s3 : AuthState := step c1s2 (Op.verify c1Email (otpCode 5) 1 "t1")

/-- The store after the second issuance, same draw, of the C1 trace. -/
def c1s4 : AuthState := step c1s3 (Op.genOtp c1Email 5 1)

/-- The user row registered in the C1 trace. -/
def c1User : UserRecord :=
  ⟨1, "a@hhamedicine.com", "Ann", "Tech", "hhamedicine.com", none, 0⟩

/-- The user row after its first successful login. -/
def c1UserB : UserRecord :=
  ⟨1, "a@hhamedicine.com", "Ann", "Tech", "hhamedicine.com", some 1, 1⟩

/-- The first issued OTP row of the C1 trace. -/
def c1Otp1 : OtpRecord :=
  ⟨2, pyLower c1Email, otpCode 5, 0, 0 + OTP_EXPIRY_MINUTES, false, 0⟩

/-- The first issued OTP row after its successful verification. -/
def c1Otp1Used : OtpRecord :=
  ⟨2, pyLower c1Email, otpCode 5, 0, 0 + OTP_EXPIRY_MINUTES, true, 0⟩

/-- The second issued OTP row of the C1 trace: a fresh row carrying the
identical code for the identical email. -/
def c1Otp2 : OtpRecord :=
  ⟨4, pyLower c1Email, otpCode 5, 1, 1 + OTP_EXPIRY_MINUTES, false, 0⟩

/-- A store with one expired unused OTP for a registered user. -/
def c4State : AuthState :=
  { settings := defaultSettings
    users := [⟨1, "a@hhamedicine.com", "A", "Tech", "hhamedicine.com", none, 0⟩]
    otps := [⟨2, "a@hhamedicine.com", "123456", 0, 5, false, 0⟩]
    sessions := []
    nextId := 3 }

/-- The expired unused OTP row of c4State. -/
def c4Otp : OtpRecord := ⟨2, "a@hhamedicine.com", "123456", 0, 5, false, 0⟩

/-- A store with one active session expiring at time 5 for an existing user. -/
def c5State : AuthState :=
  { settings := defaultSettings
    users := [⟨1, "a@hhamedicine.com", "A", "Tech", "hhamedicine.com", none, 0⟩]
    otps := []
    sessions := [⟨2, 1, "tok123", 5, true, 0⟩]
    nextId := 3 }

/-- A store with one active unexpired session, for the C5 witness. -/
def c5WitState : AuthState :=
  { settings := defaultSettings
    users := [⟨1, "b@hssmedicine.com", "B", "Ops", "hssmedicine.com", none, 0⟩]
    otps := []
    sessions := [⟨2, 1, "tok456", 100, true, 0⟩]
    nextId := 3 }

/-- A store with one expired unused OTP with attempts 0. -/
def c8State : AuthState :=
  { settings := defaultSettings
    users := [⟨1, "a@hhamedicine.com", "A", "Tech", "hhamedicine.com", none, 0⟩]
    otps := [⟨2, "a@hhamedicine.com", "123456", 0, 5, false, 0⟩]
    sessions := []
    nextId := 3 }

/-- A store with one unexpired unused OTP whose attempts counter is 3. -/
def c8WitState : AuthState :=
  { settings := defaultSettings
    users := [⟨1, "a@hhamedicine.com", "A", "Tech", "hhamedicine.com", none, 0⟩]
    otps := [⟨2, "a@hhamedicine.com", "654321", 0, 50, false, 3⟩]
    sessions := []
    nextId := 3 }

/-- The OTP row of c8WitState. -/
def c8Otp : OtpRecord := ⟨2, "a@hhamedicine.com", "654321", 0, 50, false, 3⟩

end LaudeAgent

namespace LaudePipeline

/-- A pipeline wiring in which recording yields one clip but merging
returns no output, while transcription and generation are the identity-ish
oracles. -/
def c6Env : PipelineEnv :=
  { recordClips := [7]
    mergeFn := fun _ => none
    transcribeFn := fun _ => none
    generateFn := fun t => some t
    sendFn := fun _ => true }

/-- A wiring in which recording yields no clips. -/
def c6EnvA : PipelineEnv :=
  { recordClips := []
    mergeFn := fun _ => some "final_audio.wav"
    transcribeFn := fun _ => some "transcript"
    generateFn := fun t => some t
    sendFn := fun _ => true }

/-- A wiring in which every stage up to email generation succeeds and
generation returns nothing. -/
def c6EnvB : PipelineEnv :=
  { recordClips := [1, 2]
    mergeFn := fun _ => some "final_audio.wav"
    transcribeFn := fun p => p.map fun _ => "transcript"
    generateFn := fun _ => none
    sendFn := fun _ => true }

end LaudePipeline

namespace LaudeAgent

/-! ### Helper lemmas: decimal digit strings -/

theorem digitChar_isDigit : ∀ d : Nat, d < 10 → (Nat.digitChar d).isDigit = true := by
  intro d h
  interval_cases d <;> decide

theorem digitChar_ne_zeroChar : ∀ d : Nat, d < 10 → d ≠ 0 → Nat.digitChar d ≠ '0' := by
  intro d h h0
  interval_cases d
  · exact absurd rfl h0
  all_goals decide

theorem digits_len_six {n : Nat} (h1 : 100000 ≤ n) (h2 : n < 1000000) :
    (Nat.digits 10 n).length = 6 := by
  have hn : n ≠ 0 := by omega
  rw [Nat.digits_len 10 n (by norm_num) hn]
  have hlog : Nat.log 10 n = 5 := by
    apply Nat.log_eq_of_pow_le_of_lt_pow
    · norm_num
      omega
    · norm_num
      omega
  omega

theorem natDecimalChars_len_six {n : Nat} (h1 : 100000 ≤ n) (h2 : n < 1000000) :
    (natDecimalChars n).length = 6 := by
  have hne : n ≠ 0 := by omega
  rw [natDecimalChars, if_neg hne, List.length_reverse, List.length_map,
    digits_len_six h1 h2]

theorem otpCode_data (r : Nat) :
    (otpCode r).data = pad6 (natDecimalChars (r % 900000 + 100000)) := rfl

theorem pad6_of_len_six (cs : List Char) (h : cs.length = 6) : pad6 cs = cs := by
  rw [pad6, h]
  simp

/-- Claim C10: every generated OTP code is the decimal string of an integer
in the range 100000 to 999999, six digit characters long, and its first
character is never the zero digit. -/
theorem c10_otp_code_format (r : Nat) :
    100000 ≤ r % 900000 + 100000 ∧
    r % 900000 + 100000 ≤ 999999 ∧
    (otpCode r).data = natDecimalChars (r % 900000 + 100000) ∧
    (otpCode r).data.length = 6 ∧
    (∀ c ∈ (otpCode r).data, c.isDigit = true) ∧
    (otpCode r).data.head? ≠ some '0' := by
  have hmod : r % 900000 < 900000 := Nat.mod_lt r (by norm_num)
  have hlo : 100000 ≤ r % 900000 + 100000 := by omega
  have hhi : r % 900000 + 100000 < 1000000 := by omega
  have hne : r % 900000 + 100000 ≠ 0 := by omega
  have hchars : natDecimalChars (r % 900000 + 100000) =
      ((Nat.digits 10 (r % 900000 + 100000)).map Nat.digitChar).reverse := by
    rw [natDecimalChars, if_neg hne]
  have hclen : (natDecimalChars (r % 900000 + 100000)).length = 6 :=
    natDecimalChars_len_six hlo hhi
  have hdata : (otpCode r).data = natDecimalChars (r % 900000 + 100000) := by
    rw [otpCode_data, pad6_of_len_six _ hclen]
  refine ⟨hlo, by omega, hdata, by rw [hdata]; exact hclen, ?_, ?_⟩
  · intro c hc
    rw [hdata, hchars, List.mem_reverse] at hc
    obtain ⟨d, hd, rfl⟩ := List.mem_map.mp hc
    exact digitChar_isDigit d (Nat.digits_lt_base (by norm_num) hd)
  · rw [hdata, hchars]
    have hnil : Nat.digits 10 (r % 900000 + 100000) ≠ [] := by
      intro h
      have := digits_len_six hlo hhi
      rw [h] at this
      simp at this
    rw [← List.map_reverse, List.head?_map, List.head?_reverse,
      List.getLast?_eq_getLast _ hnil, Option.map_some']
    have hmem : (Nat.digits 10 (r % 900000 + 100000)).getLast hnil ∈
        Nat.digits 10 (r % 900000 + 100000) := List.getLast_mem hnil
    have h10 : (Nat.digits 10 (r % 900000 + 100000)).getLast hnil < 10 :=
      Nat.digits_lt_base (by norm_num) hmem
    have h0 : (Nat.digits 10 (r % 900000 + 100000)).getLast hnil ≠ 0 :=
      Nat.getLast_digit_ne_zero 10 hne
    intro h
    exact digitChar_ne_zeroChar _ h10 h0 (Option.some.inj h)

/-! ### Helper lemmas: the branches of verify_otp -/

theorem verify_otp_find_none (s : AuthState) (email code : String) (now : Nat)
    (tok : String) (h : findOtp s (pyLower email) code = none) :
    verify_otp s email code now tok =
      ({ s with otps := s.otps.map fun o =>
          if o.email == pyLower email && !o.isUsed then
            { o with attempts := o.attempts + 1 }
          else o },
        failRes "Invalid OTP code. Please check and try again.") := by
  unfold verify_otp
  rw [h]

theorem verify_otp_find_expired (s : AuthState) (email code : String) (now : Nat)
    (tok : String) (m : OtpRecord) (h : findOtp s (pyLower email) code = some m)
    (hexp : now > m.expiresAt) :
    verify_otp s email code now tok =
      ({ s with otps := markUsed m.rid s.otps },
        failRes "OTP has expired. Please request a new one.") := by
  unfold verify_otp
  rw [h]
  show (if now > m.expiresAt then _ else _) = _
  rw [if_pos hexp]

theorem verify_otp_find_limit (s : AuthState) (email code : String) (now : Nat)
    (tok : String) (m : OtpRecord) (h : findOtp s (pyLower email) code = some m)
    (hexp : ¬ now > m.expiresAt) (hl : m.attempts ≥ 3) :
    verify_otp s email code now tok =
      ({ s with otps := markUsed m.rid s.otps },
        failRes "Too many failed attempts. Please request a new OTP.") := by
  unfold verify_otp
  rw [h]
  show (if now > m.expiresAt then _ else _) = _
  rw [if_neg hexp, if_pos hl]

theorem verify_otp_find_nouser (s : AuthState) (email code : String) (now : Nat)
    (tok : String) (m : OtpRecord) (h : findOtp s (pyLower email) code = some m)
    (hexp : ¬ now > m.expiresAt) (hl : ¬ m.attempts ≥ 3)
    (hu : s.users.find? (fun x => x.email == pyLower email) = none) :
    verify_otp s email code now tok =
      (s, failRes "User not found. Please register first.") := by
  unfold verify_otp
  rw [h]
  show (if now > m.expiresAt then _ else _) = _
  rw [if_neg hexp, if_neg hl, hu]

theorem verify_otp_find_success (s : AuthState) (email code : String) (now : Nat)
    (tok : String) (m : OtpRecord) (u : UserRecord)
    (h : findOtp s (pyLower email) code = some m)
    (hexp : ¬ now > m.expiresAt) (hl : ¬ m.attempts ≥ 3)
    (hu : s.users.find? (fun x => x.email == pyLower email) = some u) :
    verify_otp s email code now tok =
      ({ s with
          otps := markUsed m.rid s.otps
          sessions := s.sessions ++
            [⟨s.nextId, u.uid, tok, now + SESSION_EXPIRY_HOURS * 60, true, now⟩]
          users := s.users.map fun x =>
            if x.uid == u.uid then
              { x with lastLogin := some now, loginCount := x.loginCount + 1 }
            else x
          nextId := s.nextId + 1 },
        ⟨true, "Login successful!", some tok, none, some u⟩) := by
  unfold verify_otp
  rw [h]
  show (if now > m.expiresAt then _ else _) = _
  rw [if_neg hexp, if_neg hl, hu]

/-! ### Claim C3 -/

/-- Claim C3, counterexample: init_database is an operation of the
authentication module, and on an internal error it re-raises the
exception to the caller instead of returning a success flag. -/
theorem c3_counterexample : init_database_run true = Except.error "db error" :=
  rfl

/-- Claim C3, amended: every public EnterpriseAuth operation other than
init_database returns a dictionary for every input and every
database-layer outcome, never propagating an exception: an internal error
yields success False with the operation's failure message. -/
theorem c3_errors_surfaced (dbFail : Bool) (s : AuthState)
    (email fullName department code tok : String) (r now : Nat) :
    register_user_run dbFail s email fullName department =
      Except.ok (if dbFail then (s, failRes "Registration failed. Please try again.")
        else register_user s email fullName department) ∧
    generate_otp_run dbFail s email r now =
      Except.ok (if dbFail then (s, failRes "Failed to generate OTP. Please try again.")
        else generate_otp s email r now) ∧
    verify_otp_run dbFail s email code now tok =
      Except.ok (if dbFail then (s, failRes "Login failed. Please try again.")
        else verify_otp s email code now tok) ∧
    validate_session_run dbFail s tok now =
      Except.ok (if dbFail then (s, failRes "Session validation failed. Please login again.")
        else validate_session s tok now) ∧
    logout_user_run dbFail s tok =
      Except.ok (if dbFail then (s, failRes "Logout failed")
        else logout_user s tok) := by
  cases dbFail <;> exact ⟨rfl, rfl, rfl, rfl, rfl⟩

/-! ### Claim C4 -/

/-- Claim C4: when verify_otp matches a still-unused code whose expires_at
lies strictly before the current time, it fails with the expiry message,
irreversibly marks that OTP row used, and leaves the sessions and users
tables untouched (no session insert, no login-count update). -/
theorem c4_expiry_enforced (s : AuthState) (email code : String) (now : Nat)
    (tok : String) (m : OtpRecord)
    (hfind : findOtp s (pyLower email) code = some m)
    (hexp : now > m.expiresAt) :
    verify_otp s email code now tok =
      ({ s with otps := markUsed m.rid s.otps },
        failRes "OTP has expired. Please request a new one.") ∧
    (verify_otp s email code now tok).2.success = false ∧
    (verify_otp s email code now tok).1.sessions = s.sessions ∧
    (verify_otp s email code now tok).1.users = s.users := by
  have h := verify_otp_find_expired s email code now tok m hfind hexp
  exact ⟨h, by rw [h]; rfl, by rw [h], by rw [h]⟩

/-- Claim C4, witness: the expiry branch at a concrete store. -/
theorem c4_expiry_witness :
    findOtp c4State (pyLower "a@hhamedicine.com") "123456" = some c4Otp ∧
    6 > c4Otp.expiresAt ∧
    verify_otp c4State "a@hhamedicine.com" "123456" 6 "t" =
      ({ c4State with otps := markUsed c4Otp.rid c4State.otps },
        failRes "OTP has expired. Please request a new one.") :=
  ⟨by decide, by decide,
    (c4_expiry_enforced c4State "a@hhamedicine.com" "123456" 6 "t" c4Otp
      (by decide) (by decide)).1⟩

end LaudeAgent

namespace LaudeMerge

/-! ### Claim C7 -/

theorem mergeLoop_spec (first : WavFile) :
    ∀ (fs : List (Option WavFile)) (acc : List Nat) (tot : Nat),
      mergeLoop first fs acc tot =
        (acc ++ (((fs.filterMap id).filter (paramsMatch first)).map
            WavFile.frames).flatten,
          tot + ((((fs.filterMap id).filter (paramsMatch first)).map
            WavFile.frames).flatten).length) := by
  intro fs
  induction fs with
  | nil =>
      intro acc tot
      simp [mergeLoop]
  | cons hd rest ih =>
      intro acc tot
      cases hd with
      | none =>
          rw [mergeLoop, ih]
          simp
      | some w =>
          rw [mergeLoop]
          cases hpm : paramsMatch first w with
          | true =>
              rw [if_pos rfl, ih]
              simp [List.filterMap_cons, List.filter_cons, hpm,
                List.append_assoc, Nat.add_assoc]
          | false =>
              rw [if_neg (by simp), ih]
              simp [List.filterMap_cons, List.filter_cons, hpm]

/-- Claim C7: for a list of inputs whose first file is readable,
merge_audio_clips produces a file whose rate, channel count and sample
width are those of the first input and whose frame data is the
concatenation, in list order, of the frames of exactly those readable
inputs matching the first file on all three parameters; it returns none
when no frames were merged, on the empty list, and on an unreadable
first input. -/
theorem c7_merge_audio (first : WavFile) (rest : List (Option WavFile)) :
    merge_audio_clips (some first :: rest) =
      (if ((((some first :: rest).filterMap id).filter
            (paramsMatch first)).map WavFile.frames).flatten.length = 0 then
        none
      else
        some ⟨first.rate, first.channels, first.width,
          ((((some first :: rest).filterMap id).filter
            (paramsMatch first)).map WavFile.frames).flatten⟩) ∧
    merge_audio_clips ([] : List (Option WavFile)) = none ∧
    merge_audio_clips (none :: rest) = none := by
  refine ⟨?_, rfl, rfl⟩
  rw [merge_audio_clips, mergeLoop_spec first (some first :: rest) [] 0]
  simp

end LaudeMerge

namespace LaudePipeline

/-- Unfolding equation for mainStages. -/
theorem mainStages_eq (env : PipelineEnv) :
    mainStages env =
      (if env.recordClips.isEmpty then [Stage.record]
       else match env.transcribeFn (env.mergeFn env.recordClips) with
        | none => [Stage.record, Stage.merge, Stage.transcribe]
        | some t =>
            match env.generateFn t with
            | none => [Stage.record, Stage.merge, Stage.transcribe, Stage.generate]
            | some _ => fullOrder) := rfl

/-- Claim C6, counterexample: a run in which merging reports failure
(returns none) still executes the transcription stage, so the pipeline
does not stop before all later stages on a merge failure. -/
theorem c6_counterexample :
    c6Env.recordClips ≠ [] ∧
    c6Env.mergeFn c6Env.recordClips = none ∧
    Stage.transcribe ∈ mainStages c6Env := by
  refine ⟨by decide, rfl, by decide⟩

/-- Claim C6, amended: main executes record, merge, transcribe, generate,
send in this fixed order, each at most once (every run is a prefix of the
full order); it stops after record when no clips were recorded, after
transcribe when transcription (fed the unchecked merge result) returns
nothing, and after generate when email generation returns nothing; a merge
failure itself is not checked. -/
theorem c6_pipeline_order (env : PipelineEnv) :
    (∃ k, mainStages env = fullOrder.take k) ∧
    (env.recordClips = [] → mainStages env = fullOrder.take 1) ∧
    (env.recordClips ≠ [] →
      env.transcribeFn (env.mergeFn env.recordClips) = none →
      mainStages env = fullOrder.take 3) ∧
    (∀ t, env.recordClips ≠ [] →
      env.transcribeFn (env.mergeFn env.recordClips) = some t →
      env.generateFn t = none →
      mainStages env = fullOrder.take 4) ∧
    (∀ t d, env.recordClips ≠ [] →
      env.transcribeFn (env.mergeFn env.recordClips) = some t →
      env.generateFn t = some d →
      mainStages env = fullOrder) := by
  by_cases hempty : env.recordClips = []
  · have h1 : mainStages env = fullOrder.take 1 := by
      simp [mainStages_eq, hempty, fullOrder]
    exact ⟨⟨1, h1⟩, fun _ => h1, fun hne _ => absurd hempty hne,
      fun t hne _ _ => absurd hempty hne,
      fun t d hne _ _ => absurd hempty hne⟩
  · have hnotempty : env.recordClips.isEmpty = false := by
      simp [List.isEmpty_iff, hempty]
    cases htr : env.transcribeFn (env.mergeFn env.recordClips) with
    | none =>
        have h3 : mainStages env = fullOrder.take 3 := by
          simp [mainStages_eq, hnotempty, htr, fullOrder]
        refine ⟨⟨3, h3⟩, fun he => absurd he hempty, fun _ _ => h3, ?_, ?_⟩
        · intro t hne hsome hgen
          exact absurd hsome (by simp)
        · intro t d hne hsome hgen
          exact absurd hsome (by simp)
    | some t0 =>
        cases hgen : env.generateFn t0 with
        | none =>
            have h4 : mainStages env = fullOrder.take 4 := by
              simp [mainStages_eq, hnotempty, htr, hgen, fullOrder]
            refine ⟨⟨4, h4⟩, fun he => absurd he hempty, ?_, ?_, ?_⟩
            · intro _ hn
              exact absurd hn (by simp)
            · intro t _ hsome _
              exact h4
            · intro t d _ hsome hgsome
              have ht : t0 = t := Option.some.inj hsome
              rw [← ht, hgen] at hgsome
              exact absurd hgsome (by simp)
        | some d0 =>
            have h5 : mainStages env = fullOrder := by
              simp [mainStages_eq, hnotempty, htr, hgen]
            refine ⟨⟨5, by rw [h5]; rfl⟩, fun he => absurd he hempty, ?_, ?_, ?_⟩
            · intro _ hn
              exact absurd hn (by simp)
            · intro t _ hsome hgnone
              have ht : t0 = t := Option.some.inj hsome
              rw [← ht, hgen] at hgnone
              exact absurd hgnone (by simp)
            · intro t d _ _ _
              exact h5

/-- Claim C6, witness: concrete wirings for the record and generate stop
conditions. -/
theorem c6_pipeline_witness :
    mainStages c6EnvA = fullOrder.take 1 ∧
    mainStages c6EnvB = fullOrder.take 4 :=
  ⟨(c6_pipeline_order c6EnvA).2.1 rfl,
    (c6_pipeline_order c6EnvB).2.2.2.1 "transcript" (by decide) rfl rfl⟩

end LaudePipeline

namespace LaudeAgent

/-! ### Claim C2 -/

/-- Claim C2, counterexample: the email x@hhamedicine.com@evil has a
domain part (text after the first '@', lowercased) outside the allowed
company domains, yet register_user and generate_otp both succeed and
insert a user row and an OTP row, because the code takes split('@')[1],
the component between the first and the second '@'. -/
theorem c2_counterexample :
    ALLOWED_DOMAINS.contains (specDomainPart "x@hhamedicine.com@evil") = false ∧
    (register_user initState "x@hhamedicine.com@evil" "Jane" "Tech").2.success = true ∧
    (register_user initState "x@hhamedicine.com@evil" "Jane" "Tech").1.users ≠ [] ∧
    (generate_otp initState "x@hhamedicine.com@evil" 0 0).2.success = true ∧
    (generate_otp initState "x@hhamedicine.com@evil" 0 0).1.otps ≠ [] := by
  exact ⟨by decide, by decide, by decide, by decide, by decide⟩

/-- Helper: validate_email_domain rejects with the restriction message
exactly on the split('@')[1] domain check. -/
theorem validate_email_domain_restricted (email : String)
    (hat : hasAtSign email = true)
    (hdom : ALLOWED_DOMAINS.contains (pyDomainPart email) = false) :
    validate_email_domain email = (false, restrictionMsg) := by
  have hne : (email == "") = false := by
    cases h : email == "" with
    | false => rfl
    | true =>
        have he : email = "" := eq_of_beq h
        rw [he] at hat
        exact absurd hat (by decide)
  rw [validate_email_domain, hne, hat]
  show (if !(ALLOWED_DOMAINS.contains (pyDomainPart email)) then
      ((false, restrictionMsg) : Bool × String)
    else (true, pyDomainPart email)) = _
  rw [hdom]
  rfl

/-- Claim C2, amended: for every email containing '@' whose split('@')[1]
component (the text between the first and second '@'), lowercased, is not
an allowed company domain, register_user and generate_otp return success
False with the access-restriction message and leave the store unchanged
(no user row and no OTP row inserted). -/
theorem c2_domain_restriction (s : AuthState)
    (email fullName department : String) (r now : Nat)
    (hat : hasAtSign email = true)
    (hdom : ALLOWED_DOMAINS.contains (pyDomainPart email) = false) :
    register_user s email fullName department = (s, failRes restrictionMsg) ∧
    generate_otp s email r now = (s, failRes restrictionMsg) := by
  have hv := validate_email_domain_restricted email hat hdom
  constructor
  · rw [register_user, hv]
    rfl
  · rw [generate_otp, hv]
    rfl

/-- Claim C2, witness: a concrete rejected email. -/
theorem c2_domain_restriction_witness :
    hasAtSign "a@evil.com" = true ∧
    ALLOWED_DOMAINS.contains (pyDomainPart "a@evil.com") = false ∧
    register_user initState "a@evil.com" "Jane" "Tech" =
      (initState, failRes restrictionMsg) ∧
    generate_otp initState "a@evil.com" 1 2 =
      (initState, failRes restrictionMsg) := by
  have h := c2_domain_restriction initState "a@evil.com" "Jane" "Tech" 1 2
    (by decide) (by decide)
  exact ⟨by decide, by decide, h.1, h.2⟩

end LaudeAgent

namespace LaudeAgent

/-! ### Claim C8 -/

/-- Claim C8, counterexample: an unsuccessful verify_otp call (correct
code, but expired) that does not increment the attempts counter of the
email's unused OTP row: the row is marked used with attempts still 0. -/
theorem c8_counterexample :
    (verify_otp c8State "a@hhamedicine.com" "123456" 10 "t").2.success = false ∧
    (∃ o ∈ c8State.otps, o.email = pyLower "a@hhamedicine.com" ∧
      o.isUsed = false ∧ o.attempts = 0) ∧
    (∀ o ∈ (verify_otp c8State "a@hhamedicine.com" "123456" 10 "t").1.otps,
      o.attempts = 0) := by
  refine ⟨by decide, ⟨⟨2, "a@hhamedicine.com", "123456", 0, 5, false, 0⟩,
    by decide, by decide, by decide, by decide⟩, by decide⟩

/-- Claim C8, amended: a verify_otp call that matches no unused (email,
code) row increments the attempts counter of all of that email's unused
rows and fails with the invalid-code message; and when the matched,
unexpired row already has attempts at least 3, verify_otp fails with the
too-many-attempts message, marks the row used, and leaves sessions and
users untouched, so a fresh OTP must be requested.  The other failure
branches (expiry, unknown user) do not increment attempts. -/
theorem c8_attempt_limit (s : AuthState) (email code : String) (now : Nat)
    (tok : String) :
    (findOtp s (pyLower email) code = none →
      verify_otp s email code now tok =
        ({ s with otps := s.otps.map fun o =>
            if o.email == pyLower email && !o.isUsed then
              { o with attempts := o.attempts + 1 }
            else o },
          failRes "Invalid OTP code. Please check and try again.")) ∧
    (∀ m, findOtp s (pyLower email) code = some m → ¬ now > m.expiresAt →
      m.attempts ≥ 3 →
      verify_otp s email code now tok =
        ({ s with otps := markUsed m.rid s.otps },
          failRes "Too many failed attempts. Please request a new OTP.") ∧
      (verify_otp s email code now tok).1.sessions = s.sessions ∧
      (verify_otp s email code now tok).1.users = s.users) := by
  constructor
  · intro h
    exact verify_otp_find_none s email code now tok h
  · intro m h hexp hl
    have heq := verify_otp_find_limit s email code now tok m h hexp hl
    exact ⟨heq, by rw [heq], by rw [heq]⟩

/-- Claim C8, witness: the attempts-limit branch at a concrete store. -/
theorem c8_attempt_limit_witness :
    findOtp c8WitState (pyLower "a@hhamedicine.com") "654321" = some c8Otp ∧
    ¬ (4 : Nat) > c8Otp.expiresAt ∧
    c8Otp.attempts ≥ 3 ∧
    verify_otp c8WitState "a@hhamedicine.com" "654321" 4 "t" =
      ({ c8WitState with otps := markUsed c8Otp.rid c8WitState.otps },
        failRes "Too many failed attempts. Please request a new OTP.") :=
  ⟨by decide, by decide, by decide,
    ((c8_attempt_limit c8WitState "a@hhamedicine.com" "654321" 4 "t").2 c8Otp
      (by decide) (by decide) (by decide)).1⟩

end LaudeAgent

namespace LaudeAgent

/-! ### Claim C5 -/

/-- Helper: what a successful session-join lookup tells about the store. -/
theorem findSession_spec {s : AuthState} {tok : String}
    {ss : SessionRecord} {u : UserRecord}
    (h : findSession s tok = some (ss, u)) :
    ss ∈ s.sessions ∧ ss.sessionToken = tok ∧ ss.isActive = true ∧
    u ∈ s.users ∧ u.uid = ss.userId := by
  obtain ⟨a, ha, hfa⟩ := List.exists_of_findSome?_eq_some h
  have hmem : a ∈ s.sessions := (List.mem_filter.mp ha).1
  have hpred : (a.sessionToken == tok && a.isActive) = true :=
    (List.mem_filter.mp ha).2
  cases hfind : s.users.find? fun x => x.uid == a.userId with
  | none =>
      rw [hfind] at hfa
      exact absurd hfa (by simp)
  | some u0 =>
      rw [hfind, Option.map_some'] at hfa
      have hpair := Option.some.inj hfa
      have ha1 : a = ss := congrArg Prod.fst hpair
      have hu1 : u0 = u := congrArg Prod.snd hpair
      rw [ha1] at hmem hpred
      rw [hu1] at hfind
      rw [Bool.and_eq_true] at hpred
      refine ⟨hmem, eq_of_beq hpred.1, hpred.2,
        List.mem_of_find?_eq_some hfind, ?_⟩
      have hk := List.find?_some hfind
      rw [ha1] at hk
      exact eq_of_beq hk

/-- Helper: when a key function is duplicate-free and the predicate pins
the key, the filter result is exactly the one matching element. -/
theorem filter_single_of_nodup_key {α β : Type} (g : α → β) (p : α → Bool)
    (v : β) (hp : ∀ x, p x = true → g x = v) :
    ∀ (l : List α), (l.map g).Nodup → ∀ a ∈ l, p a = true →
      l.filter p = [a] := by
  intro l
  induction l with
  | nil =>
      intro _ a ha hpa
      exact absurd ha (by simp)
  | cons x xs ih =>
      intro hnd a ha hpa
      rw [List.map_cons, List.nodup_cons] at hnd
      obtain ⟨hx, hnd2⟩ := hnd
      cases hpx : p x with
      | true =>
          have hax : a = x := by
            rcases List.mem_cons.mp ha with h | h
            · exact h
            · exfalso
              apply hx
              have hgax : g a = g x := by rw [hp a hpa, hp x hpx]
              exact List.mem_map.mpr ⟨a, h, hgax⟩
          have hnil : xs.filter p = [] := by
            rw [List.filter_eq_nil_iff]
            intro b hb hpb
            apply hx
            have hgbx : g b = g x := by rw [hp b hpb, hp x hpx]
            exact List.mem_map.mpr ⟨b, hb, hgbx⟩
          rw [List.filter_cons, if_pos (by rw [hpx]), hnil, hax]
      | false =>
          have hax : a ∈ xs := by
            rcases List.mem_cons.mp ha with h | h
            · rw [h] at hpa
              rw [hpa] at hpx
              exact absurd hpx (by simp)
            · exact h
          rw [List.filter_cons, if_neg (by rw [hpx]; simp)]
          exact ih hnd2 a hax hpa

/-- Helper: find? succeeds when a matching element exists. -/
theorem find?_isSome_of_exists {α : Type} (p : α → Bool) (l : List α)
    (h : ∃ x ∈ l, p x = true) : ∃ y, l.find? p = some y := by
  induction l with
  | nil =>
      obtain ⟨x, hx, _⟩ := h
      exact absurd hx (by simp)
  | cons a as ih =>
      cases hpa : p a with
      | true => exact ⟨a, by rw [List.find?_cons, hpa]⟩
      | false =>
          obtain ⟨x, hx, hpx⟩ := h
          have hxas : x ∈ as := by
            rcases List.mem_cons.mp hx with hxa | hxs
            · rw [hxa] at hpx
              rw [hpx] at hpa
              exact absurd hpa (by simp)
            · exact hxs
          obtain ⟨y, hy⟩ := ih ⟨x, hxas, hpx⟩
          exact ⟨y, by rw [List.find?_cons, hpa, hy]⟩

end LaudeAgent

namespace LaudeAgent

/-- Helper: the no-session branch of validate_session. -/
theorem validate_session_find_none (s : AuthState) (tok : String) (now : Nat)
    (h : findSession s tok = none) :
    validate_session s tok now =
      (s, failRes "Invalid session. Please login again.") := by
  unfold validate_session
  rw [h]

/-- Helper: the expired branch of validate_session. -/
theorem validate_session_find_expired (s : AuthState) (tok : String)
    (now : Nat) (ss : SessionRecord) (u : UserRecord)
    (h : findSession s tok = some (ss, u)) (hexp : now > ss.expiresAt) :
    validate_session s tok now =
      ({ s with sessions := s.sessions.map fun x =>
          if x.sessionToken == tok then { x with isActive := false } else x },
        failRes "Session expired. Please login again.") := by
  unfold validate_session
  rw [h]
  show (if now > ss.expiresAt then _ else _) = _
  rw [if_pos hexp]

/-- Helper: the success branch of validate_session. -/
theorem validate_session_find_ok (s : AuthState) (tok : String)
    (now : Nat) (ss : SessionRecord) (u : UserRecord)
    (h : findSession s tok = some (ss, u)) (hexp : ¬ now > ss.expiresAt) :
    validate_session s tok now =
      ({ s with sessions := s.sessions.map fun x =>
          if x.sessionToken == tok then { x with lastActivity := now } else x },
        ⟨true, "", none, none, some u⟩) := by
  unfold validate_session
  rw [h]
  show (if now > ss.expiresAt then _ else _) = _
  rw [if_neg hexp]

/-- Helper: assembling a successful session-join lookup. -/
theorem findSession_of_filter_single (s : AuthState) (tok : String)
    (ss : SessionRecord) (y : UserRecord)
    (hfilter : (s.sessions.filter fun x => x.sessionToken == tok && x.isActive) = [ss])
    (hy : s.users.find? (fun x => x.uid == ss.userId) = some y) :
    findSession s tok = some (ss, y) := by
  unfold findSession
  rw [hfilter]
  simp [List.findSome?, hy]

end LaudeAgent

namespace LaudeAgent

/-- Claim C5, amended: with session tokens unique (the UNIQUE column
constraint), validation succeeds if and only if the presented token equals
the session_token of a stored active session whose expires_at is not
earlier than the current time (the code fails only when now is strictly
later than expires_at, so a session expiring exactly now still validates)
and whose user_id joins to an existing user; on the expired branch the
matched session is set inactive and failure returned; on success the
matched user's data is returned and only last_activity is updated. -/
theorem c5_session_validation (s : AuthState) (tok : String) (now : Nat)
    (hnd : TokensUnique s) :
    ((validate_session s tok now).2.success = true ↔
      ∃ ss ∈ s.sessions, ss.sessionToken = tok ∧ ss.isActive = true ∧
        now ≤ ss.expiresAt ∧ ∃ u ∈ s.users, u.uid = ss.userId) ∧
    (∀ ss u, findSession s tok = some (ss, u) → now > ss.expiresAt →
      validate_session s tok now =
        ({ s with sessions := s.sessions.map fun x =>
            if x.sessionToken == tok then { x with isActive := false } else x },
          failRes "Session expired. Please login again.")) ∧
    (∀ ss u, findSession s tok = some (ss, u) → ¬ now > ss.expiresAt →
      validate_session s tok now =
        ({ s with sessions := s.sessions.map fun x =>
            if x.sessionToken == tok then { x with lastActivity := now } else x },
          ⟨true, "", none, none, some u⟩)) := by
  refine ⟨⟨?_, ?_⟩,
    fun ss u h hexp => validate_session_find_expired s tok now ss u h hexp,
    fun ss u h hexp => validate_session_find_ok s tok now ss u h hexp⟩
  · intro hsucc
    cases hfs : findSession s tok with
    | none =>
        rw [validate_session_find_none s tok now hfs] at hsucc
        exact absurd hsucc (by simp [failRes])
    | some p =>
        obtain ⟨ss, u⟩ := p
        by_cases hexp : now > ss.expiresAt
        · rw [validate_session_find_expired s tok now ss u hfs hexp] at hsucc
          exact absurd hsucc (by simp [failRes])
        · obtain ⟨hmem, htok, hact, humem, huid⟩ := findSession_spec hfs
          exact ⟨ss, hmem, htok, hact, by omega, u, humem, huid⟩
  · intro hex
    obtain ⟨ss, hssmem, htok, hact, hle, u, humem, huid⟩ := hex
    have hpss : (ss.sessionToken == tok && ss.isActive) = true := by
      rw [Bool.and_eq_true]
      exact ⟨beq_iff_eq.mpr htok, hact⟩
    have hp : ∀ x : SessionRecord,
        (x.sessionToken == tok && x.isActive) = true → x.sessionToken = tok := by
      intro x hx
      rw [Bool.and_eq_true] at hx
      exact eq_of_beq hx.1
    have hnd2 : (s.sessions.map fun x => x.sessionToken).Nodup := hnd
    have hfilter : (s.sessions.filter fun x =>
        x.sessionToken == tok && x.isActive) = [ss] :=
      filter_single_of_nodup_key (fun x => x.sessionToken)
        (fun x => x.sessionToken == tok && x.isActive) tok hp
        s.sessions hnd2 ss hssmem hpss
    obtain ⟨y, hy⟩ := find?_isSome_of_exists (fun x => x.uid == ss.userId)
      s.users ⟨u, humem, beq_iff_eq.mpr huid⟩
    have hfs := findSession_of_filter_single s tok ss y hfilter hy
    rw [validate_session_find_ok s tok now ss y hfs (by omega)]

end LaudeAgent

namespace LaudeAgent

/-- Claim C5, counterexample: at the expiry boundary (now equal to
expires_at) validation succeeds although no stored session has expires_at
later than the current time, refuting the if-and-only-if as stated. -/
theorem c5_counterexample :
    (validate_session c5State "tok123" 5).2.success = true ∧
    (∀ ss ∈ c5State.sessions, ¬ (5 < ss.expiresAt)) :=
  ⟨by decide, by decide⟩

/-- Claim C5, witness: the characterization at a concrete store. -/
theorem c5_session_validation_witness :
    (c5WitState.sessions.map fun ss => ss.sessionToken).Nodup ∧
    ((validate_session c5WitState "tok456" 50).2.success = true ↔
      ∃ ss ∈ c5WitState.sessions, ss.sessionToken = "tok456" ∧
        ss.isActive = true ∧ 50 ≤ ss.expiresAt ∧
        ∃ u ∈ c5WitState.users, u.uid = ss.userId) :=
  ⟨by decide, (c5_session_validation c5WitState "tok456" 50
    (show (c5WitState.sessions.map fun ss => ss.sessionToken).Nodup by decide)).1⟩

end LaudeAgent

namespace LaudeAgent

/-- Helper: register_user never touches the otp_codes table. -/
theorem register_user_otps (s : AuthState) (email fullName department : String) :
    (register_user s email fullName department).1.otps = s.otps := by
  unfold register_user
  by_cases hv : (validate_email_domain email).1
  · rw [if_neg (by rw [hv]; simp)]
    cases get_company_info s (validate_email_domain email).2 with
    | none => rfl
    | some company =>
        cases s.users.find? fun u => u.email == pyLower email with
        | none => rfl
        | some u => rfl
  · rw [if_pos (by rw [Bool.not_eq_true] at hv; rw [hv]; rfl)]

/-- Helper: validate_session never touches the otp_codes table. -/
theorem validate_session_otps (s : AuthState) (tok : String) (now : Nat) :
    (validate_session s tok now).1.otps = s.otps := by
  unfold validate_session
  cases findSession s tok with
  | none => rfl
  | some p =>
      obtain ⟨ss, u⟩ := p
      show ((if now > ss.expiresAt then _ else _ : AuthState × AuthResult)).1.otps = s.otps
      by_cases hexp : now > ss.expiresAt
      · rw [if_pos hexp]
      · rw [if_neg hexp]

/-- Helper: logout_user never touches the otp_codes table. -/
theorem logout_user_otps (s : AuthState) (tok : String) :
    (logout_user s tok).1.otps = s.otps := rfl

/-- Helper: the invalid-domain branch of generate_otp. -/
theorem generate_otp_invalid (s : AuthState) (email : String) (r now : Nat)
    (h : (validate_email_domain email).1 = false) :
    generate_otp s email r now =
      (s, failRes (validate_email_domain email).2) := by
  unfold generate_otp
  rw [if_pos (by rw [h]; rfl)]

/-- Helper: on a valid domain the new store is genOtpState whether or not
the email send succeeds. -/
theorem generate_otp_valid_state (s : AuthState) (email : String) (r now : Nat)
    (h : (validate_email_domain email).1 = true) :
    (generate_otp s email r now).1 = genOtpState s email r now := by
  unfold generate_otp
  rw [if_neg (by rw [h]; simp)]
  by_cases hs : send_otp_email (genOtpState s email r now) email
  · rw [if_pos hs]
  · rw [if_neg hs]

/-- Helper: the otp rows of genOtpState. -/
theorem genOtpState_otps (s : AuthState) (email : String) (r now : Nat) :
    (genOtpState s email r now).otps =
      (s.otps.map fun o =>
        if o.email == pyLower email && !o.isUsed then { o with isUsed := true }
        else o) ++
        [⟨s.nextId, pyLower email, otpCode r, now, now + OTP_EXPIRY_MINUTES,
          false, 0⟩] := rfl

/-- Helper: effect of the kill map of generate_otp on liveness. -/
theorem liveFor_kill (x email : String) (o : OtpRecord) :
    liveFor x (if o.email == pyLower email && !o.isUsed then
        { o with isUsed := true } else o) =
      (if x = pyLower email then false else liveFor x o) := by
  by_cases hc : (o.email == pyLower email && !o.isUsed) = true
  · rw [if_pos hc, Bool.and_eq_true] at *
    obtain ⟨he, hu⟩ := hc
    by_cases hx : x = pyLower email
    · rw [if_pos hx]
      simp [liveFor]
    · rw [if_neg hx]
      have h1 : (o.email == x) = false := by
        rw [beq_eq_false_iff_ne, eq_of_beq he]
        exact fun habs => hx habs.symm
      simp [liveFor, h1]
  · rw [if_neg hc]
    by_cases hx : x = pyLower email
    · rw [if_pos hx]
      subst hx
      rw [liveFor]
      exact Bool.not_eq_true _ ▸ Bool.eq_false_iff.mpr hc
    · rw [if_neg hx]

/-- Helper: marking a row used never makes it live. -/
theorem liveFor_markUsed (x : String) (rid0 : Nat) (o : OtpRecord) :
    liveFor x (if o.rid == rid0 then { o with isUsed := true } else o) = true →
    liveFor x o = true := by
  by_cases hc : (o.rid == rid0) = true
  · rw [if_pos hc]
    intro h
    simp [liveFor] at h
  · rw [if_neg hc]
    exact id

/-- Helper: the attempts bump of verify_otp preserves liveness. -/
theorem liveFor_incAttempts (x email : String) (o : OtpRecord) :
    liveFor x (if o.email == pyLower email && !o.isUsed then
        { o with attempts := o.attempts + 1 } else o) = liveFor x o := by
  by_cases hc : (o.email == pyLower email && !o.isUsed) = true
  · rw [if_pos hc]
    rfl
  · rw [if_neg hc]

/-- Helper: countP is stable under a pointwise-invisible map. -/
theorem countP_map_congr {α : Type} (f : α → α) (p : α → Bool) :
    ∀ l : List α, (∀ a ∈ l, p (f a) = p a) →
      (l.map f).countP p = l.countP p := by
  intro l
  induction l with
  | nil => intro _; rfl
  | cons x xs ih =>
      intro h
      rw [List.map_cons, List.countP_cons, List.countP_cons,
        h x (List.mem_cons_self x xs),
        ih fun a ha => h a (List.mem_cons_of_mem x ha)]

/-- Helper: countP does not grow under a map that only turns the
predicate off. -/
theorem countP_map_le {α : Type} (f : α → α) (p : α → Bool) :
    ∀ l : List α, (∀ a ∈ l, p (f a) = true → p a = true) →
      (l.map f).countP p ≤ l.countP p := by
  intro l
  induction l with
  | nil => intro _; exact Nat.le_refl 0
  | cons x xs ih =>
      intro h
      rw [List.map_cons, List.countP_cons, List.countP_cons]
      have hxs := ih fun a ha hpa => h a (List.mem_cons_of_mem x ha) hpa
      by_cases hfx : p (f x) = true
      · rw [hfx, h x (List.mem_cons_self x xs) hfx]
        exact Nat.add_le_add hxs (Nat.le_refl 1)
      · rw [Bool.not_eq_true] at hfx
        rw [hfx]
        have h0 : (xs.map f).countP p + (if (false : Bool) = true then 1 else 0) =
            (xs.map f).countP p := by simp
        rw [h0]
        exact Nat.le_trans hxs (Nat.le_add_right _ _)

end LaudeAgent

namespace LaudeAgent

/-- Helper: every operation preserves the single-live invariant. -/
theorem singleLive_step (s : AuthState) (op : Op) (hinv : SingleLive s) :
    SingleLive (step s op) := by
  cases op with
  | register e n d =>
      intro x
      rw [step, register_user_otps]
      exact hinv x
  | validate tok now =>
      intro x
      rw [step, validate_session_otps]
      exact hinv x
  | logout tok =>
      intro x
      rw [step, logout_user_otps]
      exact hinv x
  | genOtp e r now =>
      intro x
      by_cases hv : (validate_email_domain e).1 = true
      · rw [step, generate_otp_valid_state s e r now hv, genOtpState_otps,
          List.countP_append]
        by_cases hx : x = pyLower e
        · have hkilled : (s.otps.map fun o =>
              if o.email == pyLower e && !o.isUsed then { o with isUsed := true }
              else o).countP (liveFor x) = 0 := by
            rw [List.countP_eq_zero]
            intro b hb
            obtain ⟨o, ho, rfl⟩ := List.mem_map.mp hb
            rw [liveFor_kill, if_pos hx]
            simp
          have hfresh : (([⟨s.nextId, pyLower e, otpCode r, now,
              now + OTP_EXPIRY_MINUTES, false, 0⟩] : List OtpRecord)).countP
              (liveFor x) = 1 := by
            rw [List.countP_cons]
            have hlive : liveFor x ⟨s.nextId, pyLower e, otpCode r, now,
                now + OTP_EXPIRY_MINUTES, false, 0⟩ = true := by
              rw [liveFor, hx]
              simp
            rw [hlive]
            simp
          rw [hkilled, hfresh]
        · have hkilled : (s.otps.map fun o =>
              if o.email == pyLower e && !o.isUsed then { o with isUsed := true }
              else o).countP (liveFor x) = s.otps.countP (liveFor x) := by
            apply countP_map_congr
            intro o ho
            rw [liveFor_kill, if_neg hx]
          have hfresh : (([⟨s.nextId, pyLower e, otpCode r, now,
              now + OTP_EXPIRY_MINUTES, false, 0⟩] : List OtpRecord)).countP
              (liveFor x) = 0 := by
            rw [List.countP_eq_zero]
            intro b hb
            rw [List.mem_singleton] at hb
            subst hb
            have h1 : (pyLower e == x) = false := by
              rw [beq_eq_false_iff_ne]
              exact fun habs => hx habs.symm
            show ¬(pyLower e == x && !false) = true
            rw [h1]
            simp
          rw [hkilled, hfresh]
          have hle := hinv x
          omega
      · rw [Bool.not_eq_true] at hv
        rw [step, generate_otp_invalid s e r now hv]
        exact hinv x
  | verify e c now tok =>
      intro x
      cases hfind : findOtp s (pyLower e) c with
      | none =>
          rw [step, verify_otp_find_none s e c now tok hfind]
          show (s.otps.map fun o =>
            if o.email == pyLower e && !o.isUsed then
              { o with attempts := o.attempts + 1 }
            else o).countP (liveFor x) ≤ 1
          rw [countP_map_congr _ _ s.otps fun o ho => liveFor_incAttempts x e o]
          exact hinv x
      | some m =>
          by_cases hexp : now > m.expiresAt
          · rw [step, verify_otp_find_expired s e c now tok m hfind hexp]
            show (markUsed m.rid s.otps).countP (liveFor x) ≤ 1
            rw [markUsed]
            exact Nat.le_trans
              (countP_map_le _ _ s.otps fun o ho => liveFor_markUsed x m.rid o)
              (hinv x)
          · by_cases hl : m.attempts ≥ 3
            · rw [step, verify_otp_find_limit s e c now tok m hfind hexp hl]
              show (markUsed m.rid s.otps).countP (liveFor x) ≤ 1
              rw [markUsed]
              exact Nat.le_trans
                (countP_map_le _ _ s.otps fun o ho => liveFor_markUsed x m.rid o)
                (hinv x)
            · cases hu : s.users.find? fun u => u.email == pyLower e with
              | none =>
                  rw [step, verify_otp_find_nouser s e c now tok m hfind hexp hl hu]
                  exact hinv x
              | some u =>
                  rw [step,
                    verify_otp_find_success s e c now tok m u hfind hexp hl hu]
                  show (markUsed m.rid s.otps).countP (liveFor x) ≤ 1
                  rw [markUsed]
                  exact Nat.le_trans
                    (countP_map_le _ _ s.otps fun o ho => liveFor_markUsed x m.rid o)
                    (hinv x)

/-- Claim C9: the single-live-OTP invariant: it holds of the fresh store
and is preserved by every operation; generate_otp first marks all the
unused OTPs of the email used and then inserts the single fresh one, and
every other operation only sets is_used to 1 and never inserts OTP rows. -/
theorem c9_single_live :
    SingleLive initState ∧ ∀ s op, SingleLive s → SingleLive (step s op) :=
  ⟨fun _ => Nat.zero_le 1, singleLive_step⟩

/-- Claim C9, witness: the invariant after a concrete issuance. -/
theorem c9_single_live_witness :
    SingleLive (step initState (Op.genOtp "a@hhamedicine.com" 7 0)) :=
  c9_single_live.2 initState (Op.genOtp "a@hhamedicine.com" 7 0)
    c9_single_live.1

end LaudeAgent

namespace LaudeAgent

/-- Helper: the ORDER BY pick returns an element of its input. -/
theorem pickLatest_mem : ∀ {l : List OtpRecord} {m : OtpRecord},
    pickLatest l = some m → m ∈ l := by
  intro l
  induction l with
  | nil => intro m h; exact absurd h (by simp [pickLatest])
  | cons o os ih =>
      intro m h
      rw [pickLatest] at h
      cases hp : pickLatest os with
      | none =>
          rw [hp] at h
          exact List.mem_cons.mpr (Or.inl (Option.some.inj h).symm)
      | some b =>
          rw [hp] at h
          have h2 : (if b.createdAt ≥ o.createdAt then some b else some o) =
              some m := h
          by_cases hc : b.createdAt ≥ o.createdAt
          · rw [if_pos hc] at h2
            have hbm : b = m := Option.some.inj h2
            exact List.mem_cons.mpr (Or.inr (hbm ▸ ih hp))
          · rw [if_neg hc] at h2
            exact List.mem_cons.mpr (Or.inl (Option.some.inj h2).symm)

/-- Helper: what a successful OTP lookup tells about the row. -/
theorem findOtp_spec {s : AuthState} {e c : String} {m : OtpRecord}
    (h : findOtp s e c = some m) :
    m ∈ s.otps ∧ m.email = e ∧ m.otp_code = c ∧ m.isUsed = false := by
  have hmem := pickLatest_mem h
  have hf := List.mem_filter.mp hmem
  have hp := hf.2
  rw [Bool.and_eq_true, Bool.and_eq_true] at hp
  refine ⟨hf.1, eq_of_beq hp.1.1, eq_of_beq hp.1.2, ?_⟩
  have := hp.2
  cases hu : m.isUsed with
  | false => rfl
  | true => rw [hu] at this; exact absurd this (by simp)

/-- Helper: a rid-preserving, used-monotone map preserves usedness. -/
theorem usedIn_map {f : OtpRecord → OtpRecord}
    (hrid : ∀ o, (f o).rid = o.rid)
    (hmono : ∀ o, o.isUsed = true → (f o).isUsed = true)
    {l : List OtpRecord} {i : Nat} (h : UsedIn l i) : UsedIn (l.map f) i := by
  obtain ⟨o, ho, hoi, hou⟩ := h
  exact ⟨f o, List.mem_map.mpr ⟨o, ho, rfl⟩, (hrid o).trans hoi, hmono o hou⟩

/-- Helper: appending rows preserves usedness. -/
theorem usedIn_append_left {l t : List OtpRecord} {i : Nat}
    (h : UsedIn l i) : UsedIn (l ++ t) i := by
  obtain ⟨o, ho, hoi, hou⟩ := h
  exact ⟨o, List.mem_append_left t ho, hoi, hou⟩

/-- Helper: a rid-preserving map preserves row well-formedness. -/
theorem wfO_map {f : OtpRecord → OtpRecord}
    (hrid : ∀ o, (f o).rid = o.rid) {l : List OtpRecord} {n : Nat}
    (h : WfO l n) : WfO (l.map f) n := by
  obtain ⟨hnd, hlt⟩ := h
  constructor
  · rw [List.map_map]
    have heq : l.map ((fun o => o.rid) ∘ f) = l.map (fun o => o.rid) :=
      List.map_congr_left fun o ho => hrid o
    rw [heq]
    exact hnd
  · intro o ho
    obtain ⟨o0, ho0, rfl⟩ := List.mem_map.mp ho
    rw [hrid o0]
    exact hlt o0 ho0

/-- Helper: well-formedness is monotone in the counter. -/
theorem wfO_le {l : List OtpRecord} {n n2 : Nat} (h : WfO l n) (hn : n ≤ n2) :
    WfO l n2 :=
  ⟨h.1, fun o ho => Nat.lt_of_lt_of_le (h.2 o ho) hn⟩

/-- Helper: appending the row carrying the fresh counter value. -/
theorem wfO_append_fresh {l : List OtpRecord} {n : Nat} (h : WfO l n)
    {o : OtpRecord} (ho : o.rid = n) : WfO (l ++ [o]) (n + 1) := by
  obtain ⟨hnd, hlt⟩ := h
  constructor
  · rw [List.map_append]
    rw [List.nodup_append]
    refine ⟨hnd, by simp, ?_⟩
    intro x hx hx2
    simp only [List.map_cons, List.map_nil, List.mem_singleton] at hx2
    obtain ⟨o0, ho0, rfl⟩ := List.mem_map.mp hx
    have hlt0 := hlt o0 ho0
    rw [hx2, ho] at hlt0
    exact absurd hlt0 (Nat.lt_irrefl n)
  · intro x hx
    rcases List.mem_append.mp hx with hx | hx
    · exact Nat.lt_of_lt_of_le (hlt x hx) (Nat.le_succ n)
    · rw [List.mem_singleton] at hx
      rw [hx, ho]
      exact Nat.lt_succ_self n

end LaudeAgent

namespace LaudeAgent

/-- Helper: register_user never decreases the id counter. -/
theorem register_user_nextId_ge (s : AuthState)
    (email fullName department : String) :
    s.nextId ≤ (register_user s email fullName department).1.nextId := by
  unfold register_user
  by_cases hv : (validate_email_domain email).1
  · rw [if_neg (by rw [hv]; simp)]
    cases get_company_info s (validate_email_domain email).2 with
    | none => exact Nat.le_refl _
    | some company =>
        cases s.users.find? fun u => u.email == pyLower email with
        | none => exact Nat.le_succ _
        | some u => exact Nat.le_refl _
  · rw [if_pos (by rw [Bool.not_eq_true] at hv; rw [hv]; rfl)]

/-- Helper: validate_session keeps the id counter. -/
theorem validate_session_nextId (s : AuthState) (tok : String) (now : Nat) :
    (validate_session s tok now).1.nextId = s.nextId := by
  unfold validate_session
  cases findSession s tok with
  | none => rfl
  | some p =>
      obtain ⟨ss, u⟩ := p
      show ((if now > ss.expiresAt then _ else _ : AuthState × AuthResult)).1.nextId = s.nextId
      by_cases hexp : now > ss.expiresAt
      · rw [if_pos hexp]
      · rw [if_neg hexp]

/-- Helper: logout_user keeps the id counter. -/
theorem logout_user_nextId (s : AuthState) (tok : String) :
    (logout_user s tok).1.nextId = s.nextId := rfl

/-- Helper: no operation ever turns a used OTP row back into an unused
one: a row id marked used stays marked used across every operation. -/
theorem usedIn_step (s : AuthState) (op : Op) (i : Nat)
    (h : UsedIn s.otps i) : UsedIn (step s op).otps i := by
  cases op with
  | register e n d =>
      rw [step, register_user_otps]
      exact h
  | validate tok now =>
      rw [step, validate_session_otps]
      exact h
  | logout tok =>
      rw [step, logout_user_otps]
      exact h
  | genOtp e r now =>
      by_cases hv : (validate_email_domain e).1 = true
      · rw [step, generate_otp_valid_state s e r now hv, genOtpState_otps]
        refine usedIn_append_left (usedIn_map ?_ ?_ h)
        · intro o
          by_cases hc : (o.email == pyLower e && !o.isUsed) = true
          · rw [if_pos hc]
          · rw [if_neg hc]
        · intro o ho
          by_cases hc : (o.email == pyLower e && !o.isUsed) = true
          · rw [if_pos hc]
          · rw [if_neg hc]
            exact ho
      · rw [Bool.not_eq_true] at hv
        rw [step, generate_otp_invalid s e r now hv]
        exact h
  | verify e c now tok =>
      cases hfind : findOtp s (pyLower e) c with
      | none =>
          rw [step, verify_otp_find_none s e c now tok hfind]
          refine usedIn_map ?_ ?_ h
          · intro o
            by_cases hc : (o.email == pyLower e && !o.isUsed) = true
            · rw [if_pos hc]
            · rw [if_neg hc]
          · intro o ho
            by_cases hc : (o.email == pyLower e && !o.isUsed) = true
            · rw [if_pos hc]
              exact ho
            · rw [if_neg hc]
              exact ho
      | some m =>
          have hmark : UsedIn (markUsed m.rid s.otps) i := by
            rw [markUsed]
            refine usedIn_map ?_ ?_ h
            · intro o
              by_cases hc : (o.rid == m.rid) = true
              · rw [if_pos hc]
              · rw [if_neg hc]
            · intro o ho
              by_cases hc : (o.rid == m.rid) = true
              · rw [if_pos hc]
              · rw [if_neg hc]
                exact ho
          by_cases hexp : now > m.expiresAt
          · rw [step, verify_otp_find_expired s e c now tok m hfind hexp]
            exact hmark
          · by_cases hl : m.attempts ≥ 3
            · rw [step, verify_otp_find_limit s e c now tok m hfind hexp hl]
              exact hmark
            · cases hu : s.users.find? fun u => u.email == pyLower e with
              | none =>
                  rw [step, verify_otp_find_nouser s e c now tok m hfind hexp hl hu]
                  exact h
              | some u =>
                  rw [step,
                    verify_otp_find_success s e c now tok m u hfind hexp hl hu]
                  exact hmark

/-- Helper: well-formedness of the store is preserved by every operation. -/
theorem wf_step (s : AuthState) (op : Op) (h : Wf s) : Wf (step s op) := by
  cases op with
  | register e n d =>
      show WfO (step s (Op.register e n d)).otps (step s (Op.register e n d)).nextId
      rw [step, register_user_otps]
      exact wfO_le h (register_user_nextId_ge s e n d)
  | validate tok now =>
      show WfO _ _
      rw [step, validate_session_otps, validate_session_nextId]
      exact h
  | logout tok =>
      show WfO _ _
      rw [step, logout_user_otps, logout_user_nextId]
      exact h
  | genOtp e r now =>
      by_cases hv : (validate_email_domain e).1 = true
      · show WfO _ _
        rw [step, generate_otp_valid_state s e r now hv]
        show WfO ((s.otps.map fun o =>
          if o.email == pyLower e && !o.isUsed then { o with isUsed := true }
          else o) ++
          [⟨s.nextId, pyLower e, otpCode r, now, now + OTP_EXPIRY_MINUTES,
            false, 0⟩]) (s.nextId + 1)
        refine wfO_append_fresh (wfO_map ?_ h) rfl
        intro o
        by_cases hc : (o.email == pyLower e && !o.isUsed) = true
        · rw [if_pos hc]
        · rw [if_neg hc]
      · rw [Bool.not_eq_true] at hv
        show WfO _ _
        rw [step, generate_otp_invalid s e r now hv]
        exact h
  | verify e c now tok =>
      cases hfind : findOtp s (pyLower e) c with
      | none =>
          show WfO _ _
          rw [step, verify_otp_find_none s e c now tok hfind]
          refine wfO_map ?_ h
          intro o
          by_cases hc : (o.email == pyLower e && !o.isUsed) = true
          · rw [if_pos hc]
          · rw [if_neg hc]
      | some m =>
          have hridm : ∀ o : OtpRecord,
              ((if o.rid == m.rid then { o with isUsed := true } else o) :
                OtpRecord).rid = o.rid := by
            intro o
            by_cases hc : (o.rid == m.rid) = true
            · rw [if_pos hc]
            · rw [if_neg hc]
          by_cases hexp : now > m.expiresAt
          · show WfO _ _
            rw [step, verify_otp_find_expired s e c now tok m hfind hexp]
            show WfO (markUsed m.rid s.otps) s.nextId
            rw [markUsed]
            exact wfO_map hridm h
          · by_cases hl : m.attempts ≥ 3
            · show WfO _ _
              rw [step, verify_otp_find_limit s e c now tok m hfind hexp hl]
              show WfO (markUsed m.rid s.otps) s.nextId
              rw [markUsed]
              exact wfO_map hridm h
            · cases hu : s.users.find? fun u => u.email == pyLower e with
              | none =>
                  show WfO _ _
                  rw [step, verify_otp_find_nouser s e c now tok m hfind hexp hl hu]
                  exact h
              | some u =>
                  show WfO _ _
                  rw [step,
                    verify_otp_find_success s e c now tok m u hfind hexp hl hu]
                  show WfO (markUsed m.rid s.otps) (s.nextId + 1)
                  rw [markUsed]
                  exact wfO_le (wfO_map hridm h) (Nat.le_succ _)

end LaudeAgent

namespace LaudeAgent

/-- Helper: a successful verify_otp matches an unused row, which is used
afterwards. -/
theorem matchedSuccessRid_spec (s : AuthState) (op : Op) (i : Nat)
    (h : matchedSuccessRid s op = some i) :
    (∃ o ∈ s.otps, o.rid = i ∧ o.isUsed = false) ∧
    UsedIn (step s op).otps i := by
  cases op with
  | register e n d => exact absurd h (by simp [matchedSuccessRid])
  | genOtp e r now => exact absurd h (by simp [matchedSuccessRid])
  | validate tok now => exact absurd h (by simp [matchedSuccessRid])
  | logout tok => exact absurd h (by simp [matchedSuccessRid])
  | verify e c now tok =>
      rw [matchedSuccessRid] at h
      by_cases hs : (verify_otp s e c now tok).2.success = true
      · rw [if_pos hs] at h
        cases hfind : findOtp s (pyLower e) c with
        | none =>
            rw [hfind] at h
            exact absurd h (by simp)
        | some m =>
            rw [hfind, Option.map_some'] at h
            have hmi : m.rid = i := Option.some.inj h
            by_cases hexp : now > m.expiresAt
            · rw [verify_otp_find_expired s e c now tok m hfind hexp] at hs
              exact absurd hs (by simp [failRes])
            · by_cases hl : m.attempts ≥ 3
              · rw [verify_otp_find_limit s e c now tok m hfind hexp hl] at hs
                exact absurd hs (by simp [failRes])
              · cases hu : s.users.find? fun u => u.email == pyLower e with
                | none =>
                    rw [verify_otp_find_nouser s e c now tok m hfind hexp hl hu] at hs
                    exact absurd hs (by simp [failRes])
                | some u =>
                    obtain ⟨hmem, _, _, hunused⟩ := findOtp_spec hfind
                    constructor
                    · exact ⟨m, hmem, hmi, hunused⟩
                    · rw [step,
                        verify_otp_find_success s e c now tok m u hfind hexp hl hu]
                      show UsedIn (markUsed m.rid s.otps) i
                      rw [markUsed]
                      refine ⟨{ m with isUsed := true }, ?_, hmi, rfl⟩
                      refine List.mem_map.mpr ⟨m, hmem, ?_⟩
                      rw [if_pos (beq_self_eq_true m.rid)]
      · rw [if_neg hs] at h
        exact absurd h (by simp)

/-- Helper: once a row id is used, no later operation ever matches it as a
successful verification again. -/
theorem countSuccess_zero : ∀ (ops : List Op) (s : AuthState) (i : Nat),
    Wf s → UsedIn s.otps i → countSuccess s i ops = 0 := by
  intro ops
  induction ops with
  | nil => intro s i _ _; rfl
  | cons op rest ih =>
      intro s i hwf hused
      rw [countSuccess]
      have hnot : ¬ matchedSuccessRid s op = some i := by
        intro hm
        obtain ⟨⟨o, ho, hoi, hou⟩, _⟩ := matchedSuccessRid_spec s op i hm
        obtain ⟨o2, ho2, hoi2, hou2⟩ := hused
        have heq : o = o2 :=
          List.inj_on_of_nodup_map hwf.1 ho ho2 (by rw [hoi, hoi2])
        rw [heq, hou2] at hou
        exact absurd hou (by simp)
      rw [if_neg hnot,
        ih (step s op) i (wf_step s op hwf) (usedIn_step s op i hused)]

/-- Helper: each OTP row is the successful match of verify_otp at most
once along any trace. -/
theorem countSuccess_le_one : ∀ (ops : List Op) (s : AuthState) (i : Nat),
    Wf s → countSuccess s i ops ≤ 1 := by
  intro ops
  induction ops with
  | nil => intro s i _; exact Nat.zero_le 1
  | cons op rest ih =>
      intro s i hwf
      rw [countSuccess]
      by_cases hm : matchedSuccessRid s op = some i
      · rw [if_pos hm,
          countSuccess_zero rest (step s op) i (wf_step s op hwf)
            (matchedSuccessRid_spec s op i hm).2]
      · rw [if_neg hm]
        have hrest := ih (step s op) i (wf_step s op hwf)
        omega

/-- Claim C1, amended: OTP rows move only forward: generate_otp inserts
the fresh row as issued-unused; no operation ever resets a used row to
unused (a used row id stays used across every operation); and in a
well-formed store every OTP row is the successful match of verify_otp at
most once along any operation trace.  The at-most-once bound holds per
issued row, not per (email, code) pair: a fresh row for the same email
may carry the identical code again, letting the pair succeed twice. -/
theorem c1_otp_forward_only (s : AuthState) (hwf : Wf s) :
    (∀ op i, UsedIn s.otps i → UsedIn (step s op).otps i) ∧
    (∀ email r now, (validate_email_domain email).1 = true →
      ∃ o ∈ (step s (Op.genOtp email r now)).otps,
        o.rid = s.nextId ∧ o.isUsed = false) ∧
    (∀ ops i, countSuccess s i ops ≤ 1) := by
  refine ⟨fun op i h => usedIn_step s op i h, ?_,
    fun ops i => countSuccess_le_one ops s i hwf⟩
  intro email r now hv
  rw [step, generate_otp_valid_state s email r now hv, genOtpState_otps]
  exact ⟨⟨s.nextId, pyLower email, otpCode r, now, now + OTP_EXPIRY_MINUTES,
      false, 0⟩,
    List.mem_append_right _ (List.mem_singleton.mpr rfl), rfl, rfl⟩

/-- Claim C1, witness: the at-most-one-success bound on a concrete trace
from the fresh store. -/
theorem c1_otp_forward_only_witness :
    Wf initState ∧
    countSuccess initState 1
      [Op.genOtp "a@hhamedicine.com" 5 0,
        Op.verify "a@hhamedicine.com" (otpCode 5) 1 "tok"] ≤ 1 := by
  have hwf : Wf initState := ⟨by decide, by decide⟩
  exact ⟨hwf, (c1_otp_forward_only initState hwf).2.2
    [Op.genOtp "a@hhamedicine.com" 5 0,
      Op.verify "a@hhamedicine.com" (otpCode 5) 1 "tok"] 1⟩

end LaudeAgent

namespace LaudeAgent

/-- Helper: the OTP insert leaves the users table unchanged. -/
theorem genOtpState_users (s : AuthState) (email : String) (r now : Nat) :
    (genOtpState s email r now).users = s.users := rfl

/-- Helper: the OTP insert advances the id counter by one. -/
theorem genOtpState_nextId (s : AuthState) (email : String) (r now : Nat) :
    (genOtpState s email r now).nextId = s.nextId + 1 := rfl

/-- Helper: the OTP lookup over a single matching unused row. -/
theorem findOtp_singleton (s : AuthState) (e c : String) (m : OtpRecord)
    (hotps : s.otps = [m]) (he : m.email = e) (hc : m.otp_code = c)
    (hu : m.isUsed = false) : findOtp s e c = some m := by
  rw [findOtp, hotps]
  have hp : (m.email == e && m.otp_code == c && !m.isUsed) = true := by
    rw [he, hc, hu]
    simp
  rw [List.filter_cons, if_pos hp]
  rfl

/-- Helper: the OTP lookup skips a used row and finds the fresh one. -/
theorem findOtp_pair_skip_used (s : AuthState) (e c : String)
    (m0 m : OtpRecord) (hotps : s.otps = [m0, m]) (h0 : m0.isUsed = true)
    (he : m.email = e) (hc : m.otp_code = c) (hu : m.isUsed = false) :
    findOtp s e c = some m := by
  rw [findOtp, hotps]
  have hp0 : (m0.email == e && m0.otp_code == c && !m0.isUsed) = false := by
    rw [h0]
    simp
  have hp : (m.email == e && m.otp_code == c && !m.isUsed) = true := by
    rw [he, hc, hu]
    simp
  rw [List.filter_cons, if_neg (by rw [hp0]; simp), List.filter_cons,
    if_pos hp]
  rfl

/-- The C1 trace email passes domain validation. -/
theorem c1_trace_hv : (validate_email_domain c1Email).1 = true := by decide

/-- The store after the registration of the C1 trace. -/
theorem c1_trace_s1 : c1s1 = ⟨defaultSettings, [c1User], [], [], 2⟩ := by
  decide

/-- The first issuance of the C1 trace takes the valid-domain branch. -/
theorem c1_trace_s2 : c1s2 = genOtpState c1s1 c1Email 5 0 := by
  show step c1s1 (Op.genOtp c1Email 5 0) = _
  rw [step]
  exact generate_otp_valid_state c1s1 c1Email 5 0 c1_trace_hv

/-- OTP rows after the first issuance. -/
theorem c1_trace_otps2 : c1s2.otps = [c1Otp1] := by
  rw [c1_trace_s2, genOtpState_otps, c1_trace_s1]
  rfl

/-- Users after the first issuance. -/
theorem c1_trace_users2 : c1s2.users = [c1User] := by
  rw [c1_trace_s2, genOtpState_users, c1_trace_s1]

/-- The first verification matches the first issued row. -/
theorem c1_trace_find1 :
    findOtp c1s2 (pyLower c1Email) (otpCode 5) = some c1Otp1 :=
  findOtp_singleton c1s2 (pyLower c1Email) (otpCode 5) c1Otp1
    c1_trace_otps2 rfl rfl rfl

/-- The user lookup of the first verification. -/
theorem c1_trace_user1 :
    c1s2.users.find? (fun u => u.email == pyLower c1Email) = some c1User := by
  rw [c1_trace_users2]
  decide

/-- The first verification takes the success branch. -/
theorem c1_trace_success1_eq :
    verify_otp c1s2 c1Email (otpCode 5) 1 "t1" =
      ({ c1s2 with
          otps := markUsed c1Otp1.rid c1s2.otps
          sessions := c1s2.sessions ++
            [⟨c1s2.nextId, c1User.uid, "t1", 1 + SESSION_EXPIRY_HOURS * 60,
              true, 1⟩]
          users := c1s2.users.map fun x =>
            if x.uid == c1User.uid then
              { x with lastLogin := some 1, loginCount := x.loginCount + 1 }
            else x
          nextId := c1s2.nextId + 1 },
        ⟨true, "Login successful!", some "t1", none, some c1User⟩) :=
  verify_otp_find_success c1s2 c1Email (otpCode 5) 1 "t1" c1Otp1 c1User
    c1_trace_find1 (by decide) (by decide) c1_trace_user1

/-- The first verification of the C1 trace succeeds. -/
theorem c1_trace_success1 :
    (verify_otp c1s2 c1Email (otpCode 5) 1 "t1").2.success = true := by
  rw [c1_trace_success1_eq]

end LaudeAgent

namespace LaudeAgent

/-- The store after the first verification. -/
theorem c1_trace_s3_eq :
    c1s3 = { c1s2 with
        otps := markUsed c1Otp1.rid c1s2.otps
        sessions := c1s2.sessions ++
          [⟨c1s2.nextId, c1User.uid, "t1", 1 + SESSION_EXPIRY_HOURS * 60,
            true, 1⟩]
        users := c1s2.users.map fun x =>
          if x.uid == c1User.uid then
            { x with lastLogin := some 1, loginCount := x.loginCount + 1 }
          else x
        nextId := c1s2.nextId + 1 } := by
  show step c1s2 (Op.verify c1Email (otpCode 5) 1 "t1") = _
  rw [step, c1_trace_success1_eq]

/-- OTP rows after the first verification: the row is used. -/
theorem c1_trace_otps3 : c1s3.otps = [c1Otp1Used] := by
  rw [c1_trace_s3_eq]
  show markUsed c1Otp1.rid c1s2.otps = [c1Otp1Used]
  rw [c1_trace_otps2, markUsed, List.map_cons, List.map_nil,
    if_pos (beq_self_eq_true c1Otp1.rid)]
  rfl

/-- Users after the first verification. -/
theorem c1_trace_users3 : c1s3.users = [c1UserB] := by
  rw [c1_trace_s3_eq]
  show (c1s2.users.map fun x =>
    if x.uid == c1User.uid then
      { x with lastLogin := some 1, loginCount := x.loginCount + 1 }
    else x) = [c1UserB]
  rw [c1_trace_users2, List.map_cons, List.map_nil,
    if_pos (beq_self_eq_true c1User.uid)]
  rfl

/-- The id counter after the first verification. -/
theorem c1_trace_nextId3 : c1s3.nextId = 4 := by
  rw [c1_trace_s3_eq]
  show c1s2.nextId + 1 = 4
  rw [c1_trace_s2, genOtpState_nextId, c1_trace_s1]

/-- The second issuance also takes the valid-domain branch. -/
theorem c1_trace_s4 : c1s4 = genOtpState c1s3 c1Email 5 1 := by
  show step c1s3 (Op.genOtp c1Email 5 1) = _
  rw [step]
  exact generate_otp_valid_state c1s3 c1Email 5 1 c1_trace_hv

/-- OTP rows after the second issuance: the used row plus a fresh
unused row carrying the identical code for the identical email. -/
theorem c1_trace_otps4 : c1s4.otps = [c1Otp1Used, c1Otp2] := by
  rw [c1_trace_s4, genOtpState_otps, c1_trace_otps3, c1_trace_nextId3,
    List.map_cons, List.map_nil,
    if_neg (by rw [show c1Otp1Used.isUsed = true from rfl]; simp)]
  rfl

/-- Users after the second issuance. -/
theorem c1_trace_users4 : c1s4.users = [c1UserB] := by
  rw [c1_trace_s4, genOtpState_users, c1_trace_users3]

/-- The second verification matches the fresh reissued row. -/
theorem c1_trace_find2 :
    findOtp c1s4 (pyLower c1Email) (otpCode 5) = some c1Otp2 :=
  findOtp_pair_skip_used c1s4 (pyLower c1Email) (otpCode 5) c1Otp1Used
    c1Otp2 c1_trace_otps4 rfl rfl rfl rfl

/-- The user lookup of the second verification. -/
theorem c1_trace_user2 :
    c1s4.users.find? (fun u => u.email == pyLower c1Email) = some c1UserB := by
  rw [c1_trace_users4]
  decide

/-- The second verification of the C1 trace succeeds for the identical
(email, code) pair. -/
theorem c1_trace_success2 :
    (verify_otp c1s4 c1Email (otpCode 5) 2 "t2").2.success = true := by
  rw [verify_otp_find_success c1s4 c1Email (otpCode 5) 2 "t2" c1Otp2 c1UserB
    c1_trace_find2 (by decide) (by decide) c1_trace_user2]

end LaudeAgent

namespace LaudeAgent

/-- Unfolding equation of pairSuccess for register operations. -/
theorem pairSuccess_register (email code e n d : String) (s : AuthState) :
    pairSuccess email code (Op.register e n d) s = false := rfl

/-- Unfolding equation of pairSuccess for issuance operations. -/
theorem pairSuccess_genOtp (email code e : String) (r now : Nat)
    (s : AuthState) : pairSuccess email code (Op.genOtp e r now) s = false :=
  rfl

/-- Unfolding equation of pairSuccess for verification operations. -/
theorem pairSuccess_verify (email code e c : String) (now : Nat)
    (tok : String) (s : AuthState) :
    pairSuccess email code (Op.verify e c now tok) s =
      (e == email && c == code && (verify_otp s e c now tok).2.success) :=
  rfl

/-- Claim C1, counterexample: verify_otp can succeed twice for the same
(email, code) pair along one operation trace: generate_otp only marks the
unused rows of the email used and checks the freshly drawn code against
nothing, so drawing the same value (here r = 5 twice) reissues the
identical code as a fresh unused row, which verifies successfully a
second time. -/
theorem c1_counterexample :
    countPairSuccess initState c1Email (otpCode 5)
      [Op.register c1Email "Ann" "Tech",
        Op.genOtp c1Email 5 0,
        Op.verify c1Email (otpCode 5) 1 "t1",
        Op.genOtp c1Email 5 1,
        Op.verify c1Email (otpCode 5) 2 "t2"] = 2 := by
  rw [countPairSuccess, pairSuccess_register, if_neg (by simp),
    show step initState (Op.register c1Email "Ann" "Tech") = c1s1 from rfl,
    countPairSuccess, pairSuccess_genOtp, if_neg (by simp),
    show step c1s1 (Op.genOtp c1Email 5 0) = c1s2 from rfl,
    countPairSuccess, pairSuccess_verify,
    if_pos (by rw [c1_trace_success1]; simp),
    show step c1s2 (Op.verify c1Email (otpCode 5) 1 "t1") = c1s3 from rfl,
    countPairSuccess, pairSuccess_genOtp, if_neg (by simp),
    show step c1s3 (Op.genOtp c1Email 5 1) = c1s4 from rfl,
    countPairSuccess, pairSuccess_verify,
    if_pos (by rw [c1_trace_success2]; simp),
    countPairSuccess]

end LaudeAgent
